import Mathlib

/-!
Verification of the ship_reports_server observation pipeline.

This file gives a shallow embedding, in Lean 4, of the parts of the
repository that the verified properties talk about:

* `app/models.py` — the `ObservationStation` record, its `normalize`
  and `is_valid` methods (here `Station`, `normalizeObs`, `isValid`);
* `app/dedup.py` — `merge_station` (here `mergeStation`);
* `app/store.py` — `StationStore.query` (here `query`);
* `app/fetchers/osmc.py` — the row-level OSMC parsing including the
  synthesized key for anonymous ships (`parseOsmcRow`, `synthKey`), and
  the request-URL time filter (`osmcBuildUrlCutoff`);
* `app/fetchers/ndbc.py` — the row-level NDBC parsing with its unit
  conversions (`rowStationYmd`, `rowStationLegacy`);
* `app/stats.py` — the request-statistics state machine (`StatsState`,
  `recordHit`, `updateCountry`);
* `app/main.py` — the types-parameter parsing of `get_observations`
  (`parseTypesParam`) and the OSMC watermark bookkeeping of
  `_fetch_osmc_task` (`osmcNextSince`).

Python floats are modelled as rationals (the feed values are short
decimal literals, far below the precision where IEEE-754 doubles and
exact rationals part ways); `datetime` instants are modelled as epoch
seconds (`Int`); Python strings are `String` / `List Char`.
-/

/-! ## Character and string helpers shared by the parsers -/

/-- Whitespace test used by the model of Python `str.strip`. -/
def isWs (c : Char) : Bool :=
  c = ' ' ∨ c = '\t' ∨ c = '\n' ∨ c = '\r'

/-- Model of Python `str.strip` on a character list. -/
def stripChars (l : List Char) : List Char :=
  ((l.dropWhile isWs).reverse.dropWhile isWs).reverse

/-- Model of Python `str.strip` on a `String`. -/
def stripS (s : String) : String :=
  String.mk (stripChars s.data)

/-- Model of Python `str.upper` (the feeds only carry ASCII). -/
def upperS (s : String) : String :=
  String.mk (s.data.map Char.toUpper)

/-- Decimal digit test. -/
def isDigitCh (c : Char) : Bool :=
  '0' ≤ c ∧ c ≤ '9'

/-- Numeric value of a decimal digit character. -/
def digitVal (c : Char) : Nat :=
  c.toNat - 48

/-- Digit character for a value below ten. -/
def digitChar10 (d : Nat) : Char :=
  Char.ofNat (48 + d)

/-- Value of a string of decimal digits (most significant first). -/
def charsVal (l : List Char) : Nat :=
  l.foldl (fun a c => 10 * a + digitVal c) 0

/-- Fuel-driven decimal rendering of a positive natural number, most
significant digit first.  The fuel argument only forces structural
termination; `natToChars` supplies enough of it. -/
def natToCharsAux : Nat → Nat → List Char
  | 0, _ => []
  | fuel + 1, n =>
    if n = 0 then [] else natToCharsAux fuel (n / 10) ++ [digitChar10 (n % 10)]

/-- Model of Python decimal rendering of a natural number (as in
`str(n)` and inside `format(x, ".1f")`). -/
def natToChars (n : Nat) : List Char :=
  if n = 0 then ['0'] else natToCharsAux (n + 1) n

/-- Model of Python decimal rendering of an integer, as in `str(i)`. -/
def intToChars (i : Int) : List Char :=
  if i < 0 then '-' :: natToChars i.natAbs else natToChars i.natAbs

/-- Model of Python `float()` restricted to the plain decimal literals
(optional sign, integer digits, optional fractional digits) that the two
feeds emit.  Surrounding whitespace is tolerated as `float()` does. -/
def parseFloatChars (l : List Char) : Option ℚ :=
  let l := stripChars l
  let sign : ℚ := if l.headD ' ' = '-' then -1 else 1
  let l := if l.headD ' ' = '-' ∨ l.headD ' ' = '+' then l.tail else l
  let ip := l.takeWhile isDigitCh
  let rest := l.drop ip.length
  match rest with
  | [] =>
    if ip = [] then none else some (sign * charsVal ip)
  | '.' :: fp =>
    if fp.all isDigitCh ∧ (ip ≠ [] ∨ fp ≠ []) then
      some (sign * (charsVal ip + (charsVal fp : ℚ) / (10 : ℚ) ^ fp.length))
    else none
  | _ => none

/-- Model of Python `int()` restricted to decimal literals. -/
def parseIntChars (l : List Char) : Option Int :=
  let l := stripChars l
  let sign : Int := if l.headD ' ' = '-' then -1 else 1
  let l := if l.headD ' ' = '-' ∨ l.headD ' ' = '+' then l.tail else l
  if l ≠ [] ∧ l.all isDigitCh then some (sign * charsVal l) else none

/-- Split a character list at every occurrence of a separator, keeping
empty groups, as Python `str.split(sep)` does. -/
def splitOnCharL (sep : Char) (l : List Char) : List (List Char) :=
  l.foldr
    (fun c acc =>
      if c = sep then [] :: acc
      else
        match acc with
        | [] => [[c]]
        | g :: gs => (c :: g) :: gs)
    [[]]

/-! ## Calendar arithmetic

Python `datetime` values are modelled as epoch seconds.  The
civil-calendar conversion below is the standard days-from-civil
algorithm; `mkDatetime` performs the range validation that the
`datetime` constructor performs (raising `ValueError`, i.e. `none`,
outside the ranges). -/

/-- Gregorian leap-year test. -/
def isLeap (y : Int) : Bool :=
  (y % 4 = 0 ∧ y % 100 ≠ 0) ∨ y % 400 = 0

/-- Number of days in a month of a given year. -/
def daysInMonth (y m : Int) : Int :=
  if m = 2 then (if isLeap y then 29 else 28)
  else if m = 4 ∨ m = 6 ∨ m = 9 ∨ m = 11 then 30
  else 31

/-- Days from 1970-01-01 to a civil date (days-from-civil algorithm). -/
def daysFromCivil (y m d : Int) : Int :=
  let yy := if m ≤ 2 then y - 1 else y
  let era := Int.fdiv yy 400
  let yoe := yy - era * 400
  let mp := Int.fmod (m + 9) 12
  let doy := (153 * mp + 2) / 5 + d - 1
  let doe := yoe * 365 + yoe / 4 - yoe / 100 + doy
  era * 146097 + doe - 719468

/-- Model of `datetime(y, m, d, h, mi, s, tzinfo=utc)` as epoch seconds,
`none` when the constructor would raise `ValueError`. -/
def mkDatetime (y m d h mi s : Int) : Option Int :=
  if 1 ≤ y ∧ y ≤ 9999 ∧ 1 ≤ m ∧ m ≤ 12 ∧ 1 ≤ d ∧ d ≤ daysInMonth y m ∧
      0 ≤ h ∧ h ≤ 23 ∧ 0 ≤ mi ∧ mi ≤ 59 ∧ 0 ≤ s ∧ s ≤ 59 then
    some (86400 * daysFromCivil y m d + 3600 * h + 60 * mi + s)
  else none

/-! ## app/models.py — the Observation record -/

/-- Embedding of the `ObservationStation` dataclass of `app/models.py`.
Optional measurement fields are `Option ℚ` (Python `None` is `none`). -/
structure Station where
  platform_code : String
  platform_type : String
  lat : ℚ
  lon : ℚ
  time : Int
  country : Option String := none
  wind_dir : Option ℚ := none
  wind_spd : Option ℚ := none
  gust : Option ℚ := none
  pressure : Option ℚ := none
  pressure_tendency : Option ℚ := none
  air_temp : Option ℚ := none
  sea_temp : Option ℚ := none
  dewpoint : Option ℚ := none
  wave_ht : Option ℚ := none
  wave_period : Option ℚ := none
  wave_avg_period : Option ℚ := none
  wave_dir : Option ℚ := none
  vis : Option ℚ := none
  water_level : Option ℚ := none
  clouds : Option ℚ := none
  source : String := ""
deriving DecidableEq, Repr

/-- Python float modulo (`a % b` with the sign of `b`), used by the
longitude remap; for `b > 0` this is the canonical representative in
`[0, b)`. -/
def pymod (a b : ℚ) : ℚ :=
  a - b * ⌊a / b⌋

/-- Embedding of `ObservationStation.normalize` (models.py lines 47-85):
longitude remap when outside `[-180, 180]`, then the per-field
plausibility clears applied to the optional measurements. -/
def normalizeObs (s : Station) : Station :=
  { s with
    lon := if s.lon < -180 ∨ s.lon > 180 then pymod (s.lon + 180) 360 - 180 else s.lon
    wind_dir :=
      match s.wind_dir with
      | some w => if ¬(0 ≤ w ∧ w ≤ 360) then none else some w
      | none => none
    wind_spd :=
      match s.wind_spd with
      | some w => if w < 0 then none else some w
      | none => none
    gust :=
      match s.gust with
      | some g => if g < 0 then none else some g
      | none => none
    pressure :=
      match s.pressure with
      | some p => if ¬(800 ≤ p ∧ p ≤ 1100) then none else some p
      | none => none
    air_temp :=
      match s.air_temp with
      | some t => if ¬(-90 ≤ t ∧ t ≤ 60) then none else some t
      | none => none
    sea_temp :=
      match s.sea_temp with
      | some t => if ¬(-5 ≤ t ∧ t ≤ 40) then none else some t
      | none => none
    wave_ht :=
      match s.wave_ht with
      | some w => if w < 0 then none else some w
      | none => none
    vis :=
      match s.vis with
      | some v => if v < 0 then none else some v
      | none => none }

/-- Embedding of `ObservationStation.is_valid` (models.py lines 87-101). -/
def isValid (s : Station) : Bool :=
  if s.platform_code = "" then false
  else if ¬(-90 ≤ s.lat ∧ s.lat ≤ 90) then false
  else if ¬(-180 ≤ s.lon ∧ s.lon ≤ 180) then false
  else true

/-! ## app/dedup.py — merge policy -/

/-- Embedding of `merge_station` (dedup.py lines 6-14): the incoming
record wins whenever its timestamp is greater than or equal to the
existing one. -/
def mergeStation (existing incoming : Station) : Station :=
  if existing.time ≤ incoming.time then incoming else existing

/-! ## Basic facts about the longitude remap -/

theorem pymod_nonneg (a : ℚ) : 0 ≤ pymod a 360 := by
  have h : (⌊a / 360⌋ : ℚ) ≤ a / 360 := Int.floor_le _
  have h2 : 360 * (⌊a / 360⌋ : ℚ) ≤ 360 * (a / 360) := by nlinarith
  have h3 : 360 * (a / 360) = a := by ring
  unfold pymod
  nlinarith

theorem pymod_lt (a : ℚ) : pymod a 360 < 360 := by
  have h : a / 360 < (⌊a / 360⌋ : ℚ) + 1 := Int.lt_floor_add_one _
  have h2 : 360 * (a / 360) < 360 * ((⌊a / 360⌋ : ℚ) + 1) := by nlinarith
  have h3 : 360 * (a / 360) = a := by ring
  unfold pymod
  nlinarith

/-- Helper: unconditional characterization of the validity gate. -/
theorem isValid_eq (s : Station) :
    isValid s = true ↔
      (s.platform_code ≠ "" ∧ -90 ≤ s.lat ∧ s.lat ≤ 90 ∧ -180 ≤ s.lon ∧ s.lon ≤ 180) := by
  unfold isValid
  split_ifs with h1 h2 h3 <;> simp_all

/-- Concrete in-range station used by several witnesses. -/
def stBuoy : Station :=
  { platform_code := "41008", platform_type := "buoy", lat := 31.4, lon := -80.87,
    time := 0, country := some "US", wind_spd := some 5, source := "ndbc" }

/-- Concrete station sitting exactly on the 180th meridian. -/
def stLon180 : Station :=
  { platform_code := "X180", platform_type := "ship", lat := 0, lon := 180, time := 0 }

/-- C2 (amended): the normalized longitude always lies in the closed
interval `[-180, 180]`, the value `180` occurs only for an input of
exactly `180`, the result is congruent to the input modulo 360, and
inputs already in `[-180, 180]` are returned unchanged. -/
theorem normalize_lon_range (s : Station) :
    (-180 ≤ (normalizeObs s).lon ∧ (normalizeObs s).lon ≤ 180)
    ∧ ((normalizeObs s).lon = 180 → s.lon = 180)
    ∧ (∃ k : ℤ, (normalizeObs s).lon = s.lon - 360 * k)
    ∧ (-180 ≤ s.lon → s.lon ≤ 180 → (normalizeObs s).lon = s.lon) := by
  have hlon : (normalizeObs s).lon =
      (if s.lon < -180 ∨ s.lon > 180 then pymod (s.lon + 180) 360 - 180 else s.lon) := rfl
  by_cases h : s.lon < -180 ∨ s.lon > 180
  · rw [hlon, if_pos h]
    have h0 := pymod_nonneg (s.lon + 180)
    have h1 := pymod_lt (s.lon + 180)
    refine ⟨⟨by linarith, by linarith⟩, ?_, ?_, ?_⟩
    · intro heq; linarith
    · exact ⟨⌊(s.lon + 180) / 360⌋, by unfold pymod; ring⟩
    · intro hge hle
      rcases h with h | h <;> linarith
  · rw [hlon, if_neg h]
    push_neg at h
    exact ⟨⟨h.1, h.2⟩, fun he => he, ⟨0, by ring⟩, fun _ _ => rfl⟩

/-- C2 witness: an in-range longitude is returned unchanged. -/
theorem normalize_lon_range_witness : (normalizeObs stBuoy).lon = stBuoy.lon :=
  (normalize_lon_range stBuoy).2.2.2 (by norm_num [stBuoy]) (by norm_num [stBuoy])

/-- C2 counterexample: an input longitude of exactly 180 is left at 180,
which is not in the half-open interval `[-180, 180)`. -/
theorem normalize_lon_180_not_halfopen :
    (normalizeObs stLon180).lon = 180 ∧ ¬((normalizeObs stLon180).lon < 180) := by
  constructor <;> norm_num [normalizeObs, stLon180]

/-- C3: for two observations sharing a platform code, `mergeStation`
returns whichever record has the greater-or-equal timestamp, the
incoming record winning ties, and merging is idempotent in the incoming
record. -/
theorem merge_newer_wins (a b : Station) (_hcode : a.platform_code = b.platform_code) :
    (a.time ≤ b.time → mergeStation a b = b)
    ∧ (b.time < a.time → mergeStation a b = a)
    ∧ mergeStation (mergeStation a b) b = mergeStation a b := by
  refine ⟨?_, ?_, ?_⟩
  · intro h; unfold mergeStation; rw [if_pos h]
  · intro h; unfold mergeStation; rw [if_neg (by omega)]
  · unfold mergeStation
    by_cases h : a.time ≤ b.time
    · rw [if_pos h, if_pos le_rfl]
    · rw [if_neg h, if_neg h]

/-- Concrete older twin of `stBuoy` used by the merge witness. -/
def stBuoyOld : Station :=
  { stBuoy with time := -3600, source := "osmc", wind_spd := none }

/-- C3 witness: with an older existing record, the incoming one wins. -/
theorem merge_newer_wins_witness : mergeStation stBuoyOld stBuoy = stBuoy :=
  (merge_newer_wins stBuoyOld stBuoy rfl).1 (by norm_num [stBuoy, stBuoyOld])

/-- C5: after normalization, validity holds exactly when the platform
code is non-empty and latitude/longitude are in their canonical ranges;
the verdict depends on no field other than those three, so changing any
optional measurement field never changes it. -/
theorem isValid_mandatory_only :
    (∀ r : Station, isValid (normalizeObs r) = true ↔
        ((normalizeObs r).platform_code ≠ "" ∧
          -90 ≤ (normalizeObs r).lat ∧ (normalizeObs r).lat ≤ 90 ∧
          -180 ≤ (normalizeObs r).lon ∧ (normalizeObs r).lon ≤ 180))
    ∧ (∀ s t : Station, s.platform_code = t.platform_code → s.lat = t.lat → s.lon = t.lon →
        isValid s = isValid t) := by
  constructor
  · intro r; exact isValid_eq (normalizeObs r)
  · intro s t h1 h2 h3
    unfold isValid
    rw [h1, h2, h3]

/-- C5 witness: clearing the optional wind-speed field leaves the
validity verdict unchanged. -/
theorem isValid_mandatory_only_witness :
    isValid stBuoy = isValid { stBuoy with wind_spd := none } :=
  isValid_mandatory_only.2 stBuoy { stBuoy with wind_spd := none } rfl rfl rfl

/-! ## app/store.py — the station store query -/

/-- Model of the type-filter guard of `StationStore.query` (store.py
line 80): `if types and s.platform_type not in types`.  Python truthiness
makes an empty supplied set behave like no filter. -/
def typesBlocks (types : Option (List String)) (ty : String) : Bool :=
  match types with
  | none => false
  | some ts => decide (ts ≠ []) && !(ts.contains ty)

/-- Per-station keep condition of `StationStore.query` (store.py lines
73-82), mirroring the chain of `continue` guards. -/
def queryKeep (cutoff latMin latMax lonMin lonMax : ℚ)
    (types : Option (List String)) (s : Station) : Bool :=
  if (s.time : ℚ) < cutoff then false
  else if ¬(latMin ≤ s.lat ∧ s.lat ≤ latMax) then false
  else if ¬(lonMin ≤ s.lon ∧ s.lon ≤ lonMax) then false
  else if typesBlocks types s.platform_type then false
  else true

/-- Embedding of `StationStore.query` (store.py lines 60-83).  The store
dictionary is an association list keyed by platform code; `now` is the
instant at which the query computes its age cutoff. -/
def query (now : Int) (stations : List (String × Station))
    (latMin latMax lonMin lonMax maxAgeHours : ℚ)
    (types : Option (List String)) : List Station :=
  let cutoff : ℚ := (now : ℚ) - maxAgeHours * 3600
  (stations.map Prod.snd).filter (queryKeep cutoff latMin latMax lonMin lonMax types)

/-- Modelled from the claim wording, for comparison with `query`: keep a
station iff its time is at least `now - max_age_hours`, it lies in the
inclusive bounding box, and, when a set of types is supplied, its type
is in that set. -/
def querySpecPred (now : Int) (latMin latMax lonMin lonMax maxAgeHours : ℚ)
    (types : Option (List String)) (s : Station) : Bool :=
  decide ((now : ℚ) - maxAgeHours * 3600 ≤ (s.time : ℚ)) &&
  decide (latMin ≤ s.lat ∧ s.lat ≤ latMax) &&
  decide (lonMin ≤ s.lon ∧ s.lon ≤ lonMax) &&
  (match types with
   | none => true
   | some ts => ts.contains s.platform_type)

/-- Helper: the guard chain of `query` written as one conjunction. -/
theorem queryKeep_eq_and (c latMin latMax lonMin lonMax : ℚ)
    (types : Option (List String)) (s : Station) :
    queryKeep c latMin latMax lonMin lonMax types s
      = (!decide ((s.time : ℚ) < c) && decide (latMin ≤ s.lat ∧ s.lat ≤ latMax)
          && decide (lonMin ≤ s.lon ∧ s.lon ≤ lonMax)
          && !typesBlocks types s.platform_type) := by
  unfold queryKeep
  split_ifs with h1 h2 h3 h4 <;> simp_all

/-- Helper: with no type set, or a non-empty one, the code guard agrees
pointwise with the claim predicate. -/
theorem queryKeep_eq_spec (now : Int) (latMin latMax lonMin lonMax age : ℚ)
    (types : Option (List String))
    (h : types = none ∨ ∃ ts, types = some ts ∧ ts ≠ []) (s : Station) :
    queryKeep ((now : ℚ) - age * 3600) latMin latMax lonMin lonMax types s
      = querySpecPred now latMin latMax lonMin lonMax age types s := by
  rw [queryKeep_eq_and]
  have hd : (!decide ((s.time : ℚ) < (now : ℚ) - age * 3600))
      = decide ((now : ℚ) - age * 3600 ≤ (s.time : ℚ)) := by
    by_cases h1 : ((s.time : ℚ) < (now : ℚ) - age * 3600)
    · simp [h1, not_le.mpr h1]
    · simp [h1, not_lt.mp h1]
  unfold querySpecPred typesBlocks
  rw [hd]
  rcases h with rfl | ⟨ts, rfl, hts⟩
  · simp
  · simp [hts]

/-- Concrete second station for the bounding-box example. -/
def stOslo : Station :=
  { platform_code := "OSLO", platform_type := "ship", lat := 60, lon := 10, time := 0 }

/-- Concrete two-station store for the bounding-box example. -/
def demoStore : List (String × Station) :=
  [("41008", stBuoy), ("OSLO", stOslo)]

/-- C4 (amended): with no type set or a non-empty one, `query` returns
exactly the stored entries passing the age, inclusive-bounding-box and
type-membership conditions; in particular the store holding points at
(31.4, -80.87) and (60, 10), queried with bbox (30, 35, -85, -75),
returns exactly the first. -/
theorem query_filters_exactly :
    (∀ (now : Int) (stations : List (String × Station))
        (latMin latMax lonMin lonMax age : ℚ) (types : Option (List String)),
      (types = none ∨ ∃ ts, types = some ts ∧ ts ≠ []) →
      query now stations latMin latMax lonMin lonMax age types
        = (stations.map Prod.snd).filter
            (querySpecPred now latMin latMax lonMin lonMax age types))
    ∧ query 0 demoStore 30 35 (-85) (-75) 6 none = [stBuoy] := by
  constructor
  · intro now stations latMin latMax lonMin lonMax age types h
    unfold query
    exact List.filter_congr
      (fun s _ => queryKeep_eq_spec now latMin latMax lonMin lonMax age types h s)
  · norm_num [query, queryKeep, typesBlocks, demoStore, stBuoy, stOslo]

/-- C4 witness: the filter characterization applied to a concrete store
and a concrete non-empty type set. -/
theorem query_filters_exactly_witness :
    query 0 demoStore (-90) 90 (-180) 180 6 (some ["buoy"])
      = (demoStore.map Prod.snd).filter
          (querySpecPred 0 (-90) 90 (-180) 180 6 (some ["buoy"])) :=
  query_filters_exactly.1 0 demoStore (-90) 90 (-180) 180 6 (some ["buoy"])
    (Or.inr ⟨["buoy"], rfl, by decide⟩)

/-- C4 counterexample: supplying an empty type set does not restrict the
result at all, so a stored buoy is returned even though its type is not
a member of the (empty) supplied set. -/
theorem query_empty_types_cex :
    query 0 [("41008", stBuoy)] (-90) 90 (-180) 180 6 (some []) = [stBuoy]
    ∧ (([] : List String).contains stBuoy.platform_type) = false := by
  refine ⟨?_, rfl⟩
  norm_num [query, queryKeep, typesBlocks, stBuoy]

/-! ## app/main.py — parsing of the types query parameter -/

/-- Embedding of the types-parameter handling of `get_observations`
(main.py lines 241-243).  Python builds a set comprehension; it is
modelled as the list of stripped, non-empty groups (order kept,
duplicates kept — neither matters for the verified properties). -/
def parseTypesParam (types : String) : Option (List String) :=
  if types = "all" then none
  else
    some ((((splitOnCharL ',' types.data).map stripChars).filter
      (fun g => g ≠ [])).map String.mk)

/-- C10: an empty (but supplied) type set applies no filtering — the
query result is identical to the one with no type set — and the public
interface reaches this case, since a types parameter of "," parses to
an empty set. -/
theorem query_empty_typeset_no_filter :
    (∀ (now : Int) (stations : List (String × Station))
        (latMin latMax lonMin lonMax age : ℚ),
      query now stations latMin latMax lonMin lonMax age (some [])
        = query now stations latMin latMax lonMin lonMax age none)
    ∧ parseTypesParam "," = some [] := by
  constructor
  · intro now stations latMin latMax lonMin lonMax age
    unfold query
    exact List.filter_congr (fun s _ => by simp [queryKeep, typesBlocks])
  · decide

/-! ## app/stats.py — request statistics and GeoIP resolution

Python `Counter` / `dict` objects are modelled as association lists
(first binding wins, as dictionary keys are unique); `set` membership is
list membership and `set.discard` removes every occurrence.  The
private-address classifier `_is_private` is only ever used as a Boolean
gate, so it is passed in as an abstract predicate. -/

/-- Counter read: value of the first binding of a key, zero if absent. -/
def lookupVal : List (String × Nat) → String → Nat
  | [], _ => 0
  | (k, v) :: rest, key => if k = key then v else lookupVal rest key

/-- Counter increment: add to the first binding, or append a binding. -/
def bump : List (String × Nat) → String → Nat → List (String × Nat)
  | [], key, n => [(key, n)]
  | (k, v) :: rest, key, n =>
    if k = key then (k, v + n) :: rest else (k, v) :: bump rest key n

/-- Counter pop: drop the first binding of a key. -/
def removeFirst : List (String × Nat) → String → List (String × Nat)
  | [], _ => []
  | (k, v) :: rest, key => if k = key then rest else (k, v) :: removeFirst rest key

/-- Dictionary read on a string-valued association list. -/
def lookupAssoc : List (String × String) → String → Option String
  | [], _ => none
  | (k, v) :: rest, key => if k = key then some v else lookupAssoc rest key

/-- Sum of all counter values. -/
def sumVals (l : List (String × Nat)) : Nat :=
  (l.map Prod.snd).sum

/-- Embedding of the module state of `app/stats.py` (lines 6-10). -/
structure StatsState where
  totalRequests : Nat
  countryCounts : List (String × Nat)
  ipHitCount : List (String × Nat)
  ipCountryCache : List (String × String)
  pendingLookups : List String
deriving DecidableEq, Repr

/-- Module initial state of `app/stats.py`: everything empty. -/
def initStats : StatsState :=
  { totalRequests := 0, countryCounts := [], ipHitCount := [],
    ipCountryCache := [], pendingLookups := [] }

/-- Embedding of `record_hit` (stats.py lines 21-42).  The returned
Boolean is the signal telling the caller to start an async lookup. -/
def recordHit (isPriv : String → Bool) (ip : String) (s : StatsState) :
    Bool × StatsState :=
  let s1 := { s with totalRequests := s.totalRequests + 1 }
  if isPriv ip then
    (false, { s1 with countryCounts := bump s1.countryCounts "Local" 1 })
  else
    match lookupAssoc s1.ipCountryCache ip with
    | some c => (false, { s1 with countryCounts := bump s1.countryCounts c 1 })
    | none =>
      let s2 := { s1 with ipHitCount := bump s1.ipHitCount ip 1 }
      if ip ∈ s2.pendingLookups then (false, s2)
      else (true, { s2 with pendingLookups := ip :: s2.pendingLookups })

/-- Embedding of `update_country` (stats.py lines 45-53): discard the
pending flag, then either drop the result (already resolved) or cache
the country and move the buffered hits into its bucket. -/
def updateCountry (ip country : String) (s : StatsState) : StatsState :=
  let pend := s.pendingLookups.filter (fun x => x ≠ ip)
  match lookupAssoc s.ipCountryCache ip with
  | some _ => { s with pendingLookups := pend }
  | none =>
    let hits := lookupVal s.ipHitCount ip
    { totalRequests := s.totalRequests
      countryCounts :=
        if hits ≠ 0 then bump s.countryCounts country hits else s.countryCounts
      ipHitCount := removeFirst s.ipHitCount ip
      ipCountryCache := (ip, country) :: s.ipCountryCache
      pendingLookups := pend }

/-- Helper: bumping a counter raises its total by the bumped amount. -/
theorem sumVals_bump (l : List (String × Nat)) (k : String) (n : Nat) :
    sumVals (bump l k n) = sumVals l + n := by
  induction l with
  | nil => simp [bump, sumVals]
  | cons p rest ih =>
    obtain ⟨k2, v⟩ := p
    by_cases h : k2 = k <;> simp [bump, h, sumVals] at ih ⊢ <;> omega

/-- Helper: a counter total splits into the popped binding and the rest. -/
theorem sumVals_removeFirst (l : List (String × Nat)) (k : String) :
    sumVals l = sumVals (removeFirst l k) + lookupVal l k := by
  induction l with
  | nil => simp [removeFirst, lookupVal, sumVals]
  | cons p rest ih =>
    obtain ⟨k2, v⟩ := p
    by_cases h : k2 = k <;> simp [removeFirst, lookupVal, h, sumVals] at ih ⊢ <;> omega

/-- Helper: bumping a key raises exactly that key. -/
theorem lookupVal_bump_self (l : List (String × Nat)) (k : String) (n : Nat) :
    lookupVal (bump l k n) k = lookupVal l k + n := by
  induction l with
  | nil => simp [bump, lookupVal]
  | cons p rest ih =>
    obtain ⟨k2, v⟩ := p
    by_cases h : k2 = k <;> simp [bump, lookupVal, h, ih]

/-- Helper: an absent key reads as zero. -/
theorem lookupVal_eq_zero_of_not_mem (l : List (String × Nat)) (k : String)
    (h : k ∉ l.map Prod.fst) : lookupVal l k = 0 := by
  induction l with
  | nil => rfl
  | cons p rest ih =>
    obtain ⟨k2, v⟩ := p
    rw [List.map_cons, List.mem_cons] at h
    push_neg at h
    have hk : ¬k2 = k := fun hc => h.1 hc.symm
    simp [lookupVal, hk, ih h.2]

/-- Helper: with unique keys, popping a key zeroes its reading. -/
theorem lookupVal_removeFirst_self (l : List (String × Nat)) (k : String)
    (h : (l.map Prod.fst).Nodup) : lookupVal (removeFirst l k) k = 0 := by
  induction l with
  | nil => rfl
  | cons p rest ih =>
    obtain ⟨k2, v⟩ := p
    rw [List.map_cons, List.nodup_cons] at h
    by_cases hk : k2 = k
    · subst hk
      have hr : removeFirst ((k2, v) :: rest) k2 = rest := by simp [removeFirst]
      rw [hr]
      exact lookupVal_eq_zero_of_not_mem rest k2 h.1
    · have hr : removeFirst ((k2, v) :: rest) k = (k2, v) :: removeFirst rest k := by
        simp [removeFirst, hk]
      rw [hr]
      simp [lookupVal, hk, ih h.2]

/-- C8: lookup-signal coalescing and first-resolution-wins.  A hit on a
non-private unresolved address signals a lookup exactly when none is
outstanding; a true signal marks the address outstanding; the
outstanding mark survives other hits and resolutions of other
addresses, and while it is set every further hit returns false.
Resolving an already-cached address changes no counter and not the
cache; resolving a new address caches it, moves all its buffered hits
into the country bucket in the same step, and clears the mark. -/
theorem stats_coalescing (isPriv : String → Bool) (ip c : String) (s : StatsState) :
    ((isPriv ip = false → lookupAssoc s.ipCountryCache ip = none →
        ((recordHit isPriv ip s).1 = true ↔ ip ∉ s.pendingLookups))
      ∧ ((recordHit isPriv ip s).1 = true →
          ip ∈ (recordHit isPriv ip s).2.pendingLookups)
      ∧ (∀ ip2 : String, ip ∈ s.pendingLookups →
          ip ∈ (recordHit isPriv ip2 s).2.pendingLookups)
      ∧ (ip ∈ s.pendingLookups → (recordHit isPriv ip s).1 = false))
    ∧ ((∀ b c2 : String, ip ∈ s.pendingLookups → b ≠ ip →
          ip ∈ (updateCountry b c2 s).pendingLookups)
      ∧ ((lookupAssoc s.ipCountryCache ip).isSome = true →
          (updateCountry ip c s).ipCountryCache = s.ipCountryCache
          ∧ (updateCountry ip c s).countryCounts = s.countryCounts
          ∧ (updateCountry ip c s).ipHitCount = s.ipHitCount
          ∧ (updateCountry ip c s).totalRequests = s.totalRequests)
      ∧ (lookupAssoc s.ipCountryCache ip = none →
          lookupAssoc (updateCountry ip c s).ipCountryCache ip = some c
          ∧ (updateCountry ip c s).ipHitCount = removeFirst s.ipHitCount ip
          ∧ ((s.ipHitCount.map Prod.fst).Nodup →
              lookupVal (updateCountry ip c s).ipHitCount ip = 0)
          ∧ lookupVal (updateCountry ip c s).countryCounts c
              = lookupVal s.countryCounts c + lookupVal s.ipHitCount ip
          ∧ (updateCountry ip c s).totalRequests = s.totalRequests
          ∧ ip ∉ (updateCountry ip c s).pendingLookups)) := by
  constructor
  · refine ⟨?_, ?_, ?_, ?_⟩
    · intro h1 h2
      by_cases hp : ip ∈ s.pendingLookups <;> simp [recordHit, h1, h2, hp]
    · by_cases h1 : isPriv ip = true
      · simp [recordHit, h1]
      · rw [Bool.not_eq_true] at h1
        cases hc : lookupAssoc s.ipCountryCache ip with
        | some c2 => simp [recordHit, h1, hc]
        | none =>
          by_cases hp : ip ∈ s.pendingLookups <;> simp [recordHit, h1, hc, hp]
    · intro ip2 hmem
      by_cases h1 : isPriv ip2 = true
      · simpa [recordHit, h1] using hmem
      · rw [Bool.not_eq_true] at h1
        cases hc : lookupAssoc s.ipCountryCache ip2 with
        | some c2 => simpa [recordHit, h1, hc] using hmem
        | none =>
          by_cases hp : ip2 ∈ s.pendingLookups
          · simpa [recordHit, h1, hc, hp] using hmem
          · simp [recordHit, h1, hc, hp]
            exact Or.inr hmem
    · intro hp
      by_cases h1 : isPriv ip = true
      · simp [recordHit, h1]
      · rw [Bool.not_eq_true] at h1
        cases hc : lookupAssoc s.ipCountryCache ip with
        | some c2 => simp [recordHit, h1, hc]
        | none => simp [recordHit, h1, hc, hp]
  · refine ⟨?_, ?_, ?_⟩
    · intro b c2 hmem hne
      cases hc : lookupAssoc s.ipCountryCache b with
      | some c3 =>
        simp [updateCountry, hc, List.mem_filter]
        exact ⟨hmem, fun hx => (hne hx.symm).elim⟩
      | none =>
        simp [updateCountry, hc, List.mem_filter]
        exact ⟨hmem, fun hx => (hne hx.symm).elim⟩
    · intro hsome
      obtain ⟨c2, hc⟩ := Option.isSome_iff_exists.mp hsome
      simp [updateCountry, hc]
    · intro hc
      refine ⟨?_, ?_, ?_, ?_, ?_, ?_⟩
      · simp [updateCountry, hc, lookupAssoc]
      · simp [updateCountry, hc]
      · intro hnd
        simpa [updateCountry, hc] using lookupVal_removeFirst_self s.ipHitCount ip hnd
      · by_cases hh : lookupVal s.ipHitCount ip = 0
        · simp [updateCountry, hc, hh]
        · simp [updateCountry, hc, hh, lookupVal_bump_self]
      · simp [updateCountry, hc]
      · simp [updateCountry, hc, List.mem_filter]

/-- C8 witness: in a state where the address is marked outstanding, a
further hit does not signal another lookup. -/
theorem stats_coalescing_witness :
    (recordHit (fun _ => false) "8.8.8.8" { initStats with pendingLookups := ["8.8.8.8"] }).1
      = false :=
  ((stats_coalescing (fun _ => false) "8.8.8.8" "US"
    { initStats with pendingLookups := ["8.8.8.8"] }).1.2.2.2 (by simp))

/-- C9 invariant: the total request counter equals the finalized
per-country counts plus the still-buffered unresolved hits. -/
def statsInv (s : StatsState) : Prop :=
  s.totalRequests = sumVals s.countryCounts + sumVals s.ipHitCount

/-- C9: the conservation invariant holds in the initial state and is
preserved by every `record_hit` and every `update_country` call, so no
recorded hit is lost or double-counted by resolution. -/
theorem stats_total_conserved :
    statsInv initStats
    ∧ (∀ (isPriv : String → Bool) (ip : String) (s : StatsState),
        statsInv s → statsInv (recordHit isPriv ip s).2)
    ∧ (∀ (ip c : String) (s : StatsState),
        statsInv s → statsInv (updateCountry ip c s)) := by
  refine ⟨rfl, ?_, ?_⟩
  · intro isPriv ip s hs
    unfold statsInv at hs ⊢
    by_cases h1 : isPriv ip = true
    · simp [recordHit, h1, sumVals_bump]
      omega
    · rw [Bool.not_eq_true] at h1
      cases hc : lookupAssoc s.ipCountryCache ip with
      | some c2 =>
        simp [recordHit, h1, hc, sumVals_bump]
        omega
      | none =>
        by_cases hp : ip ∈ s.pendingLookups <;>
          simp [recordHit, h1, hc, hp, sumVals_bump] <;> omega
  · intro ip c s hs
    unfold statsInv at hs ⊢
    cases hc : lookupAssoc s.ipCountryCache ip with
    | some c2 => simpa [updateCountry, hc] using hs
    | none =>
      have hsplit := sumVals_removeFirst s.ipHitCount ip
      by_cases hh : lookupVal s.ipHitCount ip = 0
      · simp [updateCountry, hc, hh]
        omega
      · simp [updateCountry, hc, hh, sumVals_bump]
        omega

/-- C9 witness: the invariant survives a concrete public hit followed by
its resolution. -/
theorem stats_total_conserved_witness :
    statsInv (updateCountry "8.8.8.8" "US"
      (recordHit (fun _ => false) "8.8.8.8" initStats).2) :=
  stats_total_conserved.2.2 "8.8.8.8" "US" _
    (stats_total_conserved.2.1 (fun _ => false) "8.8.8.8" initStats
      stats_total_conserved.1)

/-! ## app/fetchers/osmc.py — OSMC request URL and row parsing -/

/-- Lookback constant `OSMC_LOOKBACK_HOURS` (config.py line 12). -/
def OSMC_LOOKBACK_HOURS : Int := 6

/-- Embedding of `_build_url` (osmc.py lines 61-65), reduced to the one
datum the URL carries: the lower time bound of the request filter.  The
function reads only the current clock — it takes no watermark argument,
and always filters from `now − OSMC_LOOKBACK_HOURS`. -/
def osmcBuildUrlCutoff (now : Int) : Int :=
  now - OSMC_LOOKBACK_HOURS * 3600

/-- Parameter list of `async def fetch_osmc(client)` (osmc.py line 154). -/
def fetchOsmcParams : List String := ["client"]

/-- Keyword arguments of the call `fetch_osmc(client, since=_osmc_since)`
in `_fetch_osmc_task` (main.py line 89). -/
def fetchOsmcCallKwargs : List String := ["since"]

/-- A Python call binds only when every keyword argument names a formal
parameter; otherwise the call raises `TypeError`. -/
def kwargsBind (params kwargs : List String) : Bool :=
  kwargs.all params.contains

/-- Watermark update of `_fetch_osmc_task` on success (main.py line 93):
the fetch that started at `fetchStart` stores `fetchStart − 5 minutes`. -/
def osmcNextSince (fetchStart : Int) : Int :=
  fetchStart - 5 * 60

/-- OSMC platform-type lookup table (osmc.py lines 21-53). -/
def PLATFORM_TYPE_MAP : List (String × String) :=
  [("VOLUNTEER OBSERVING SHIPS", "ship"), ("SHIPS", "ship"),
   ("SHIPS (GENERIC)", "ship"), ("SHIP FISHING VESSEL", "ship"),
   ("VOSCLIM", "ship"),
   ("MOORED BUOYS", "buoy"), ("WEATHER BUOYS", "buoy"),
   ("TROPICAL MOORED BUOYS", "buoy"), ("TSUNAMI WARNING STATIONS", "buoy"),
   ("MOORED BUOYS (GENERIC)", "buoy"), ("WEATHER BUOYS (GENERIC)", "buoy"),
   ("DRIFTING BUOYS", "drifter"), ("DRIFTING BUOYS (GENERIC)", "drifter"),
   ("ICE BUOYS", "drifter"), ("UNCREWED SURFACE VEHICLE", "drifter"),
   ("TAGGED ANIMAL", "drifter"),
   ("C-MAN WEATHER STATIONS", "shore"), ("SHORE AND BOTTOM STATIONS", "shore"),
   ("TIDE GAUGE STATIONS", "shore"), ("GLOSS", "shore"),
   ("RESEARCH", "other"), ("PROFILING FLOATS AND GLIDERS", "other"),
   ("GLIDERS", "other"), ("UNKNOWN", "other"),
   ("WEATHER OBS", "other"), ("WEATHER AND OCEAN OBS", "other")]

/-- Embedding of `normalize_platform_type` (osmc.py lines 56-58). -/
def normalizePlatformType (raw : String) : String :=
  (lookupAssoc PLATFORM_TYPE_MAP (upperS (stripS raw))).getD "other"

/-- Embedding of `_parse_float` (osmc.py lines 68-75): empty and NaN
markers are absent, everything else goes through `float()`. -/
def osmcParseFloat (val : String) : Option ℚ :=
  if val.data = [] ∨ stripChars val.data = [] ∨
      (stripChars val.data).map Char.toUpper = "NAN".data then none
  else parseFloatChars val.data

/-- Restricted ISO-8601 parser modelling `datetime.fromisoformat` (after
the `Z` to `+00:00` replacement of osmc.py line 83) on the
`YYYY-MM-DDTHH:MM:SS(Z)` instants the feed emits, as epoch seconds. -/
def parseIsoChars (l : List Char) : Option Int :=
  match l with
  | y1 :: y2 :: y3 :: y4 :: '-' :: m1 :: m2 :: '-' :: d1 :: d2 :: 'T' ::
      h1 :: h2 :: ':' :: mi1 :: mi2 :: ':' :: s1 :: s2 :: rest =>
    if [y1, y2, y3, y4, m1, m2, d1, d2, h1, h2, mi1, mi2, s1, s2].all isDigitCh ∧
        (rest = [] ∨ rest = ['Z'] ∨ rest = "+00:00".data) then
      mkDatetime (charsVal [y1, y2, y3, y4]) (charsVal [m1, m2]) (charsVal [d1, d2])
        (charsVal [h1, h2]) (charsVal [mi1, mi2]) (charsVal [s1, s2])
    else none
  | _ => none

/-- Embedding of `_parse_time` (osmc.py lines 78-85). -/
def osmcParseTime (val : String) : Option Int :=
  if val.data = [] ∨ stripChars val.data = [] then none
  else parseIsoChars val.data

/-- Decimal rendering of a magnitude in tenths: integer part, dot, one
fractional digit — the shape `format` produces after rounding. -/
def magChars (m : Nat) : List Char :=
  natToChars (m / 10) ++ '.' :: [digitChar10 (m % 10)]

/-- Model of Python `format(x, ".1f")`: the sign of the input followed
by its magnitude rounded to tenths.  (CPython rounds exact halves of
the underlying double to even; the feed's values never sit on such a
tie and no theorem below depends on the tie direction.) -/
def fmtTenths (q : ℚ) : List Char :=
  (if q < 0 then ['-'] else []) ++ magChars (round (|q| * 10)).toNat

/-- The synthesized key for anonymous ships (osmc.py line 116),
`f"SHIP_{lat:.1f}_{lon:.1f}_{int(time.timestamp())}"`, as characters. -/
def synthKey (lat lon : ℚ) (t : Int) : List Char :=
  "SHIP_".data ++ fmtTenths lat ++ '_' :: (fmtTenths lon ++ '_' :: intToChars t)

/-- One CSV row of the OSMC feed as handed over by `csv.DictReader`:
the named fields read by `parse_osmc_csv`, each a raw string (a missing
column reads as the empty string, as `row.get(..., "")` does). -/
structure OsmcRow where
  platform_code : String := ""
  platform_type : String := ""
  country : String := ""
  latitude : String := ""
  longitude : String := ""
  time : String := ""
  sst : String := ""
  atmp : String := ""
  slp : String := ""
  windspd : String := ""
  winddir : String := ""
  wvht : String := ""
  waterlevel : String := ""
  clouds : String := ""
  dewpoint : String := ""
deriving DecidableEq, Repr

/-- Embedding of the per-row body of `parse_osmc_csv` (osmc.py lines
103-148): mandatory-field parsing, the anonymous-ship synthetic key, the
calm/unavailable wind-direction clear, record assembly, normalization
and the validity gate. -/
def parseOsmcRow (r : OsmcRow) : Option Station :=
  match osmcParseTime r.time, osmcParseFloat r.latitude, osmcParseFloat r.longitude with
  | some t, some lat, some lon =>
    let pc := stripS r.platform_code
    if pc = "" then none
    else
      let pc2 := if upperS pc = "SHIP" then String.mk (synthKey lat lon t) else pc
      let windDir :=
        match osmcParseFloat r.winddir with
        | some w => if w = 0 then none else some w
        | none => none
      let st := normalizeObs
        { platform_code := pc2
          platform_type := normalizePlatformType r.platform_type
          lat := lat
          lon := lon
          time := t
          country := if stripS r.country = "" then none else some (stripS r.country)
          sea_temp := osmcParseFloat r.sst
          air_temp := osmcParseFloat r.atmp
          pressure := osmcParseFloat r.slp
          wind_spd := osmcParseFloat r.windspd
          wind_dir := windDir
          wave_ht := osmcParseFloat r.wvht
          water_level := osmcParseFloat r.waterlevel
          clouds := osmcParseFloat r.clouds
          dewpoint := osmcParseFloat r.dewpoint
          source := "osmc" }
      if isValid st then some st else none
  | _, _, _ => none

/-! ## Injectivity of the synthesized-key rendering -/

/-- Helper: value of a digit string extended by one digit. -/
theorem charsVal_append_digit (l : List Char) (c : Char) :
    charsVal (l ++ [c]) = 10 * charsVal l + digitVal c := by
  simp [charsVal, List.foldl_append]

/-- Helper: `digitChar10` and `digitVal` are inverse below ten. -/
theorem digitVal_digitChar10 (d : Nat) (h : d < 10) :
    digitVal (digitChar10 d) = d := by
  interval_cases d <;> rfl

/-- Helper: `digitChar10` produces digit characters below ten. -/
theorem isDigitCh_digitChar10 (d : Nat) (h : d < 10) :
    isDigitCh (digitChar10 d) = true := by
  interval_cases d <;> rfl

/-- Helper: the fuel-driven renderer emits digits and is inverted by
`charsVal` whenever the fuel covers the number. -/
theorem natToCharsAux_spec (fuel : Nat) : ∀ n : Nat, n ≤ fuel →
    (natToCharsAux fuel n).all isDigitCh = true ∧
      charsVal (natToCharsAux fuel n) = n := by
  induction fuel with
  | zero =>
    intro n h
    have hn : n = 0 := by omega
    subst hn
    refine ⟨rfl, rfl⟩
  | succ f ih =>
    intro n h
    by_cases hn : n = 0
    · subst hn
      refine ⟨rfl, rfl⟩
    · have hdiv : n / 10 ≤ f := by
        have := Nat.div_lt_self (Nat.pos_of_ne_zero hn) (by norm_num : 1 < 10)
        omega
      obtain ⟨iha, ihv⟩ := ih (n / 10) hdiv
      have hrw : natToCharsAux (f + 1) n
          = natToCharsAux f (n / 10) ++ [digitChar10 (n % 10)] := by
        rw [show natToCharsAux (f + 1) n
            = if n = 0 then []
              else natToCharsAux f (n / 10) ++ [digitChar10 (n % 10)] from rfl,
          if_neg hn]
      have hlt : n % 10 < 10 := Nat.mod_lt n (by norm_num)
      constructor
      · rw [hrw, List.all_append]
        simp [iha, isDigitCh_digitChar10 (n % 10) hlt]
      · rw [hrw, charsVal_append_digit, ihv, digitVal_digitChar10 (n % 10) hlt]
        omega

/-- Helper: decimal renderings consist of digit characters. -/
theorem natToChars_all_digits (n : Nat) : (natToChars n).all isDigitCh = true := by
  unfold natToChars
  by_cases h : n = 0
  · simp [h]
    rfl
  · rw [if_neg h]
    exact (natToCharsAux_spec (n + 1) n (by omega)).1

/-- Helper: `charsVal` inverts the decimal rendering. -/
theorem charsVal_natToChars (n : Nat) : charsVal (natToChars n) = n := by
  unfold natToChars
  by_cases h : n = 0
  · subst h
    rfl
  · rw [if_neg h]
    exact (natToCharsAux_spec (n + 1) n (by omega)).2

/-- Helper: decimal rendering of naturals is injective. -/
theorem natToChars_inj {m n : Nat} (h : natToChars m = natToChars n) : m = n := by
  have hm := charsVal_natToChars m
  rw [h, charsVal_natToChars] at hm
  omega

/-- Helper: a non-digit character never occurs in an all-digit string. -/
theorem not_mem_of_all_digits {l : List Char} (hall : l.all isDigitCh = true)
    {c : Char} (hc : isDigitCh c = false) : c ∉ l := by
  intro hmem
  have := List.all_eq_true.mp hall c hmem
  rw [hc] at this
  exact Bool.false_ne_true this

/-- Helper: splitting at an absent separator is unambiguous. -/
theorem append_sep_inj (sep : Char) : ∀ {x y u v : List Char}, sep ∉ x → sep ∉ y →
    x ++ sep :: u = y ++ sep :: v → x = y ∧ u = v := by
  intro x
  induction x with
  | nil =>
    intro y u v _ hy h
    cases y with
    | nil => simpa using h
    | cons b ys =>
      rw [List.nil_append, List.cons_append] at h
      injection h with h1 h2
      exact absurd (h1 ▸ List.mem_cons_self b ys) hy
  | cons a xs ih =>
    intro y u v hx hy h
    cases y with
    | nil =>
      rw [List.cons_append, List.nil_append] at h
      injection h with h1 h2
      exact absurd (h1 ▸ List.mem_cons_self a xs) (h1 ▸ hx)
    | cons b ys =>
      rw [List.cons_append, List.cons_append] at h
      injection h with h1 h2
      obtain ⟨hxy, huv⟩ := ih (fun hm => hx (List.mem_cons_of_mem a hm))
        (fun hm => hy (List.mem_cons_of_mem b hm)) h2
      exact ⟨by rw [h1, hxy], huv⟩

/-- Helper: no underscore in a magnitude rendering. -/
theorem underscore_not_mem_magChars (m : Nat) : '_' ∉ magChars m := by
  unfold magChars
  intro hmem
  rcases List.mem_append.mp hmem with h | h
  · exact not_mem_of_all_digits (natToChars_all_digits _) (by decide) h
  · rcases List.mem_cons.mp h with h2 | h2
    · exact absurd h2 (by decide)
    · have he : '_' = digitChar10 (m % 10) := by simpa using h2
      have hd := isDigitCh_digitChar10 (m % 10) (Nat.mod_lt m (by norm_num))
      rw [← he] at hd
      exact absurd hd (by decide)

/-- Helper: no minus sign in a magnitude rendering. -/
theorem dash_not_mem_magChars (m : Nat) : '-' ∉ magChars m := by
  unfold magChars
  intro hmem
  rcases List.mem_append.mp hmem with h | h
  · exact not_mem_of_all_digits (natToChars_all_digits _) (by decide) h
  · rcases List.mem_cons.mp h with h2 | h2
    · exact absurd h2 (by decide)
    · have he : '-' = digitChar10 (m % 10) := by simpa using h2
      have hd := isDigitCh_digitChar10 (m % 10) (Nat.mod_lt m (by norm_num))
      rw [← he] at hd
      exact absurd hd (by decide)

/-- Helper: magnitude renderings are injective. -/
theorem magChars_inj {m1 m2 : Nat} (h : magChars m1 = magChars m2) : m1 = m2 := by
  unfold magChars at h
  obtain ⟨h1, h2⟩ := append_sep_inj '.'
    (not_mem_of_all_digits (natToChars_all_digits _) (by decide))
    (not_mem_of_all_digits (natToChars_all_digits _) (by decide)) h
  have hdiv := natToChars_inj h1
  have hc : digitChar10 (m1 % 10) = digitChar10 (m2 % 10) := by
    injection h2
  have hval := congrArg digitVal hc
  rw [digitVal_digitChar10 _ (Nat.mod_lt m1 (by norm_num)),
    digitVal_digitChar10 _ (Nat.mod_lt m2 (by norm_num))] at hval
  omega

/-- Helper: rounded magnitudes are non-negative. -/
theorem round_tenths_nonneg (q : ℚ) : 0 ≤ round (|q| * 10) := by
  rw [round_eq]
  exact Int.floor_nonneg.mpr (by positivity)

/-- Helper: no underscore in a formatted coordinate. -/
theorem underscore_not_mem_fmtTenths (q : ℚ) : '_' ∉ fmtTenths q := by
  unfold fmtTenths
  intro hmem
  rcases List.mem_append.mp hmem with h | h
  · by_cases hq : q < 0
    · rw [if_pos hq] at h
      exact absurd (List.mem_singleton.mp h) (by decide)
    · rw [if_neg hq] at h
      exact absurd h (List.not_mem_nil '_')
  · exact underscore_not_mem_magChars _ h

/-- Helper: no underscore in a rendered integer. -/
theorem underscore_not_mem_intToChars (t : Int) : '_' ∉ intToChars t := by
  unfold intToChars
  intro hmem
  by_cases h : t < 0
  · rw [if_pos h] at hmem
    rcases List.mem_cons.mp hmem with h2 | h2
    · exact absurd h2 (by decide)
    · exact not_mem_of_all_digits (natToChars_all_digits _) (by decide) h2
  · rw [if_neg h] at hmem
    exact not_mem_of_all_digits (natToChars_all_digits _) (by decide) hmem

/-- Helper: a formatted coordinate determines the sign and the rounded
magnitude of the coordinate. -/
theorem fmtTenths_eq_iff (q1 q2 : ℚ) :
    fmtTenths q1 = fmtTenths q2 ↔
      ((q1 < 0 ↔ q2 < 0) ∧ round (|q1| * 10) = round (|q2| * 10)) := by
  have e1 := round_tenths_nonneg q1
  have e2 := round_tenths_nonneg q2
  unfold fmtTenths
  constructor
  · intro h
    by_cases h1 : q1 < 0 <;> by_cases h2 : q2 < 0
    · rw [if_pos h1, if_pos h2, List.singleton_append, List.singleton_append] at h
      injection h with _ h3
      have := magChars_inj h3
      exact ⟨iff_of_true h1 h2, by omega⟩
    · rw [if_pos h1, if_neg h2, List.singleton_append, List.nil_append] at h
      exact absurd (h ▸ List.mem_cons_self '-' _) (dash_not_mem_magChars _)
    · rw [if_neg h1, if_pos h2, List.singleton_append, List.nil_append] at h
      exact absurd (h.symm ▸ List.mem_cons_self '-' _) (dash_not_mem_magChars _)
    · rw [if_neg h1, if_neg h2, List.nil_append, List.nil_append] at h
      have := magChars_inj h
      exact ⟨iff_of_false h1 h2, by omega⟩
  · rintro ⟨hiff, hr⟩
    have hs : (if q1 < 0 then ['-'] else []) = (if q2 < 0 then ['-'] else []) := by
      by_cases hq : q1 < 0
      · rw [if_pos hq, if_pos (hiff.mp hq)]
      · rw [if_neg hq, if_neg (fun hh => hq (hiff.mpr hh))]
    rw [hs, hr]

/-- Helper: rendered integers are injective. -/
theorem intToChars_inj {t1 t2 : Int} (h : intToChars t1 = intToChars t2) :
    t1 = t2 := by
  unfold intToChars at h
  by_cases h1 : t1 < 0 <;> by_cases h2 : t2 < 0
  · rw [if_pos h1, if_pos h2] at h
    injection h with _ h3
    have := natToChars_inj h3
    omega
  · rw [if_pos h1, if_neg h2] at h
    exact absurd (h ▸ List.mem_cons_self '-' _)
      (not_mem_of_all_digits (natToChars_all_digits _) (by decide))
  · rw [if_neg h1, if_pos h2] at h
    exact absurd (h.symm ▸ List.mem_cons_self '-' _)
      (not_mem_of_all_digits (natToChars_all_digits _) (by decide))
  · rw [if_neg h1, if_neg h2] at h
    have := natToChars_inj h
    omega

/-- Helper: two synthesized keys are equal exactly when the two
formatted positions and the epoch second agree. -/
theorem synthKey_eq_iff (lat1 lon1 : ℚ) (t1 : Int) (lat2 lon2 : ℚ) (t2 : Int) :
    synthKey lat1 lon1 t1 = synthKey lat2 lon2 t2 ↔
      (fmtTenths lat1 = fmtTenths lat2 ∧ fmtTenths lon1 = fmtTenths lon2 ∧ t1 = t2) := by
  constructor
  · intro h
    unfold synthKey at h
    rw [List.append_assoc, List.append_assoc] at h
    have h1 := List.append_cancel_left h
    obtain ⟨ha, hrest⟩ := append_sep_inj '_' (underscore_not_mem_fmtTenths _)
      (underscore_not_mem_fmtTenths _) h1
    obtain ⟨hb, hc⟩ := append_sep_inj '_' (underscore_not_mem_fmtTenths _)
      (underscore_not_mem_fmtTenths _) hrest
    exact ⟨ha, hb, intToChars_inj hc⟩
  · rintro ⟨h1, h2, h3⟩
    unfold synthKey
    rw [h1, h2, h3]

/-- C1: the OSMC fetch cannot honor the watermark.  The call in
`_fetch_osmc_task` passes a `since` keyword that `fetch_osmc` does not
accept (the call does not bind, a `TypeError`), and the lower time
bound `_build_url` puts into the request URL is always
`now − OSMC_LOOKBACK_HOURS`, independent of the stored watermark, which
`_fetch_osmc_task` would set to `fetch start − 5 minutes`. -/
theorem osmc_watermark_unused :
    kwargsBind fetchOsmcParams fetchOsmcCallKwargs = false
    ∧ (∀ now : Int, osmcBuildUrlCutoff now = now - 21600)
    ∧ (∀ t : Int, osmcNextSince t = t - 300) := by
  exact ⟨rfl, fun now => rfl, fun t => rfl⟩

/-- The anonymous-ship row of the spec example, at (-30.1, 45.2). -/
def shipRowT1 : OsmcRow :=
  { platform_code := "SHIP", latitude := "-30.1", longitude := "45.2",
    time := "2026-02-20T12:00:00Z" }

/-- The second anonymous-ship row of the spec example, at (-31.0, 46.0). -/
def shipRowT2 : OsmcRow :=
  { platform_code := "SHIP", latitude := "-31.0", longitude := "46.0",
    time := "2026-02-20T13:00:00Z" }

/-- Anonymous row at latitude 0.01. -/
def shipRowA : OsmcRow :=
  { platform_code := "SHIP", latitude := "0.01", longitude := "45.2",
    time := "2026-02-20T12:00:00Z" }

/-- Anonymous row at latitude 0.04, otherwise identical to `shipRowA`. -/
def shipRowB : OsmcRow :=
  { platform_code := "SHIP", latitude := "0.04", longitude := "45.2",
    time := "2026-02-20T12:00:00Z" }

/-- C6 (amended): a "SHIP"-coded row is keyed by its formatted
one-decimal position and epoch second; two synthesized keys are equal
exactly when the formatted coordinates (sign and rounded tenths) and
the epoch second all agree — so reports differing in rounded position
or in time get distinct keys, as the example rows at (-30.1, 45.2) and
(-31.0, 46.0) do, while reports with the same rounded position and
second share a key. -/
theorem osmc_synth_key_characterization :
    (∀ (lat1 lon1 : ℚ) (t1 : Int) (lat2 lon2 : ℚ) (t2 : Int),
      synthKey lat1 lon1 t1 = synthKey lat2 lon2 t2 ↔
        ((lat1 < 0 ↔ lat2 < 0) ∧ round (|lat1| * 10) = round (|lat2| * 10)
          ∧ (lon1 < 0 ↔ lon2 < 0) ∧ round (|lon1| * 10) = round (|lon2| * 10)
          ∧ t1 = t2))
    ∧ (∀ (r : OsmcRow) (st : Station) (lat lon : ℚ) (t : Int),
        parseOsmcRow r = some st →
        osmcParseTime r.time = some t →
        osmcParseFloat r.latitude = some lat →
        osmcParseFloat r.longitude = some lon →
        upperS (stripS r.platform_code) = "SHIP" →
        st.platform_code = String.mk (synthKey lat lon t))
    ∧ synthKey (-30.1) 45.2 1771588800 ≠ synthKey (-31) 46 1771592400 := by
  refine ⟨?_, ?_, ?_⟩
  · intro lat1 lon1 t1 lat2 lon2 t2
    rw [synthKey_eq_iff, fmtTenths_eq_iff, fmtTenths_eq_iff]
    tauto
  · intro r st lat lon t hrow ht hlat hlon hship
    have hpc : ¬(stripS r.platform_code = "") := by
      intro he
      rw [he] at hship
      exact absurd hship (by decide)
    simp only [parseOsmcRow, ht, hlat, hlon, if_neg hpc, if_pos hship] at hrow
    split at hrow
    all_goals
      split at hrow
      · rw [Option.some.injEq] at hrow
        subst hrow
        simp [normalizeObs]
      · exact absurd hrow (by simp)
  · with_unfolding_all decide

/-- C6 witness: the parser maps the first example row to exactly the
synthesized key of its parsed position and epoch second. -/
theorem osmc_synth_key_characterization_witness :
    (parseOsmcRow shipRowT1).map Station.platform_code
      = some (String.mk (synthKey (-30.1) 45.2 1771588800)) := by
  obtain ⟨st, hst⟩ : ∃ st, parseOsmcRow shipRowT1 = some st :=
    Option.isSome_iff_exists.mp (by with_unfolding_all decide)
  rw [hst]
  simp only [Option.map_some', Option.some.injEq]
  exact osmc_synth_key_characterization.2.1 shipRowT1 st (-30.1) 45.2 1771588800 hst
    (by decide) (by with_unfolding_all decide)
    (by with_unfolding_all decide) (by decide)

/-- C6 counterexample: the rows `shipRowA` and `shipRowB` are two
distinct anonymous reports at different positions (latitudes 0.01 and
0.04) with the same timestamp, yet they receive the same synthesized
key, refuting the claim that reports at different positions always get
distinct keys. -/
theorem osmc_synth_key_collision_cex :
    (parseOsmcRow shipRowA).map Station.platform_code
      = (parseOsmcRow shipRowB).map Station.platform_code
    ∧ (parseOsmcRow shipRowA).map Station.lat
        ≠ (parseOsmcRow shipRowB).map Station.lat
    ∧ ((parseOsmcRow shipRowA).map Station.platform_code).isSome = true := by
  refine ⟨?_, ?_, ?_⟩ <;> with_unfolding_all decide

/-! ## app/fetchers/ndbc.py — NDBC row parsing and unit conversions -/

/-- NDBC station-type lookup table (ndbc.py lines 19-27). -/
def NDBC_TYPE_MAP : List (String × String) :=
  [("buoy", "buoy"), ("fixed", "shore"), ("dart", "buoy"), ("other", "other"),
   ("usv", "drifter"), ("oilrig", "shore"), ("tao", "buoy")]

/-- Embedding of `NDBCMetadata.get_type` (ndbc.py lines 53-58).  The
metadata is the station-id to normalized-type table that
`load_from_xml` builds; an unknown station defaults to "buoy", and the
stored type runs through `NDBC_TYPE_MAP` once more, falling back to
itself. -/
def metaGetType (stations : List (String × String)) (sid : String) : String :=
  match lookupAssoc stations sid with
  | none => "buoy"
  | some rawType => (lookupAssoc NDBC_TYPE_MAP rawType).getD rawType

/-- Embedding of `_parse_mm` (ndbc.py lines 61-69): strip, treat empty
and the literal "MM" sentinel as absent, then `float()`. -/
def parseMM (val : String) : Option ℚ :=
  let v := stripChars val.data
  if v = [] ∨ v = "MM".data then none
  else parseFloatChars v

/-- Embedding of `_ft_to_m` (ndbc.py lines 72-74). -/
def ftToM (v : Option ℚ) : Option ℚ :=
  match v with
  | some x => some (x * 0.3048)
  | none => none

/-- Embedding of `_nmi_to_m` (ndbc.py lines 77-79). -/
def nmiToM (v : Option ℚ) : Option ℚ :=
  match v with
  | some x => some (x * 1852.0)
  | none => none

/-- Embedding of `_parse_ndbc_time_ymd` (ndbc.py lines 82-89). -/
def parseNdbcTimeYmd (yyyy mm dd hh mn : String) : Option Int :=
  match parseIntChars yyyy.data, parseIntChars mm.data, parseIntChars dd.data,
      parseIntChars hh.data, parseIntChars mn.data with
  | some y, some m, some d, some h, some mi => mkDatetime y m d h mi 0
  | _, _, _, _, _ => none

/-- Embedding of `_parse_ndbc_time` (ndbc.py lines 92-98), the legacy
`MM/DD/YYYY` plus `hh:mm` columns as `strptime` reads them. -/
def parseNdbcTimeLegacy (dateStr timeStr : String) : Option Int :=
  match dateStr.data, timeStr.data with
  | [m1, m2, '/', d1, d2, '/', y1, y2, y3, y4], [h1, h2, ':', n1, n2] =>
    if [m1, m2, d1, d2, y1, y2, y3, y4, h1, h2, n1, n2].all isDigitCh then
      mkDatetime (charsVal [y1, y2, y3, y4]) (charsVal [m1, m2]) (charsVal [d1, d2])
        (charsVal [h1, h2]) (charsVal [n1, n2]) 0
    else none
  | _, _ => none

/-- Embedding of the "ymd"-layout row assembly of
`parse_ndbc_latest_obs` (ndbc.py lines 140-176): the short-row,
latitude/longitude and timestamp guards, then the record as constructed
— unit conversions for visibility and water level happen right here. -/
def rowStationYmd (meta : List (String × String)) (parts : List String) :
    Option Station :=
  if parts.length < 20 then none
  else
    let stn := stripS (parts.getD 0 "")
    match parseMM (parts.getD 1 ""), parseMM (parts.getD 2 "") with
    | some lat, some lon =>
      match parseNdbcTimeYmd (parts.getD 3 "") (parts.getD 4 "") (parts.getD 5 "")
          (parts.getD 6 "") (parts.getD 7 "") with
      | some t =>
        some { platform_code := stn
               platform_type := metaGetType meta stn
               lat := lat
               lon := lon
               time := t
               country := some "US"
               wind_dir := parseMM (parts.getD 8 "")
               wind_spd := parseMM (parts.getD 9 "")
               gust := parseMM (parts.getD 10 "")
               wave_ht := parseMM (parts.getD 11 "")
               wave_period := parseMM (parts.getD 12 "")
               wave_avg_period := parseMM (parts.getD 13 "")
               wave_dir := parseMM (parts.getD 14 "")
               pressure := parseMM (parts.getD 15 "")
               pressure_tendency := parseMM (parts.getD 16 "")
               air_temp := parseMM (parts.getD 17 "")
               sea_temp := parseMM (parts.getD 18 "")
               dewpoint := parseMM (parts.getD 19 "")
               vis := if parts.length > 20 then nmiToM (parseMM (parts.getD 20 "")) else none
               water_level := if parts.length > 21 then ftToM (parseMM (parts.getD 21 "")) else none
               clouds := none
               source := "ndbc" }
      | none => none
    | _, _ => none

/-- Embedding of the legacy-layout row assembly of
`parse_ndbc_latest_obs` (ndbc.py lines 177-212). -/
def rowStationLegacy (meta : List (String × String)) (parts : List String) :
    Option Station :=
  if parts.length < 17 then none
  else
    let stn := stripS (parts.getD 0 "")
    match parseMM (parts.getD 1 ""), parseMM (parts.getD 2 "") with
    | some lat, some lon =>
      match parseNdbcTimeLegacy (parts.getD 3 "") (parts.getD 4 "") with
      | some t =>
        some { platform_code := stn
               platform_type := metaGetType meta stn
               lat := lat
               lon := lon
               time := t
               country := some "US"
               wind_dir := parseMM (parts.getD 5 "")
               wind_spd := parseMM (parts.getD 6 "")
               gust := parseMM (parts.getD 7 "")
               wave_ht := parseMM (parts.getD 8 "")
               wave_period := parseMM (parts.getD 9 "")
               wave_avg_period := parseMM (parts.getD 10 "")
               wave_dir := parseMM (parts.getD 11 "")
               pressure := parseMM (parts.getD 12 "")
               pressure_tendency := parseMM (parts.getD 13 "")
               air_temp := parseMM (parts.getD 14 "")
               sea_temp := parseMM (parts.getD 15 "")
               dewpoint := parseMM (parts.getD 16 "")
               vis := if parts.length > 17 then nmiToM (parseMM (parts.getD 17 "")) else none
               water_level := if parts.length > 18 then ftToM (parseMM (parts.getD 18 "")) else none
               clouds := none
               source := "ndbc" }
      | none => none
    | _, _ => none

set_option maxRecDepth 2000 in
/-- C7: wind speed and gust pass through `_parse_mm` unchanged, while a
present visibility is multiplied by exactly 1852.0 (nautical miles to
metres) and a present water level by exactly 0.3048 (feet to metres),
in both column layouts; numerically, "1.0" becomes 1852.0 metres and
"2.0" becomes 0.6096 metres. -/
theorem ndbc_unit_conversions :
    (∀ (meta : List (String × String)) (parts : List String) (st : Station),
      rowStationYmd meta parts = some st →
        st.wind_spd = parseMM (parts.getD 9 "")
        ∧ st.gust = parseMM (parts.getD 10 "")
        ∧ (parts.length > 20 →
            st.vis = (parseMM (parts.getD 20 "")).map (fun v => v * 1852.0))
        ∧ (parts.length > 21 →
            st.water_level = (parseMM (parts.getD 21 "")).map (fun v => v * 0.3048)))
    ∧ (∀ (meta : List (String × String)) (parts : List String) (st : Station),
      rowStationLegacy meta parts = some st →
        st.wind_spd = parseMM (parts.getD 6 "")
        ∧ st.gust = parseMM (parts.getD 7 "")
        ∧ (parts.length > 17 →
            st.vis = (parseMM (parts.getD 17 "")).map (fun v => v * 1852.0))
        ∧ (parts.length > 18 →
            st.water_level = (parseMM (parts.getD 18 "")).map (fun v => v * 0.3048)))
    ∧ (parseMM "1.0").map (fun v => v * (1852.0 : ℚ)) = some 1852
    ∧ (parseMM "2.0").map (fun v => v * (0.3048 : ℚ)) = some 0.6096 := by
  refine ⟨?_, ?_, ?_, ?_⟩
  · intro meta parts st h
    unfold rowStationYmd at h
    split at h
    · exact absurd h (by simp)
    · split at h
      · split at h
        · rw [Option.some.injEq] at h
          subst h
          refine ⟨rfl, rfl, ?_, ?_⟩
          · intro hlen
            show (if parts.length > 20 then nmiToM (parseMM (parts.getD 20 "")) else none) = _
            rw [if_pos hlen]
            cases hp : parseMM (parts.getD 20 "") <;> simp [nmiToM, hp]
          · intro hlen
            show (if parts.length > 21 then ftToM (parseMM (parts.getD 21 "")) else none) = _
            rw [if_pos hlen]
            cases hp : parseMM (parts.getD 21 "") <;> simp [ftToM, hp]
        · exact absurd h (by simp)
      · exact absurd h (by simp)
  · intro meta parts st h
    unfold rowStationLegacy at h
    split at h
    · exact absurd h (by simp)
    · split at h
      · split at h
        · rw [Option.some.injEq] at h
          subst h
          refine ⟨rfl, rfl, ?_, ?_⟩
          · intro hlen
            show (if parts.length > 17 then nmiToM (parseMM (parts.getD 17 "")) else none) = _
            rw [if_pos hlen]
            cases hp : parseMM (parts.getD 17 "") <;> simp [nmiToM, hp]
          · intro hlen
            show (if parts.length > 18 then ftToM (parseMM (parts.getD 18 "")) else none) = _
            rw [if_pos hlen]
            cases hp : parseMM (parts.getD 18 "") <;> simp [ftToM, hp]
        · exact absurd h (by simp)
      · exact absurd h (by simp)
  · with_unfolding_all decide
  · with_unfolding_all decide

/-- Concrete modern-layout NDBC row: 22 columns with visibility "1.0"
nautical miles and water level "2.0" feet. -/
def ndbcDemoParts : List String :=
  ["41008", "31.4", "-80.87", "2026", "02", "20", "14", "30",
   "170.0", "5.0", "7.0", "MM", "MM", "MM", "MM", "1014.7", "MM",
   "14.8", "18.2", "10.1", "1.0", "2.0"]

set_option maxRecDepth 2000 in
/-- C7 witness: on the concrete row the parsed record carries
1852 metres of visibility and 0.6096 metres of water level. -/
theorem ndbc_unit_conversions_witness :
    (rowStationYmd [] ndbcDemoParts).map Station.vis = some (some 1852)
    ∧ (rowStationYmd [] ndbcDemoParts).map Station.water_level = some (some 0.6096) := by
  obtain ⟨st, hst⟩ : ∃ st, rowStationYmd [] ndbcDemoParts = some st :=
    Option.isSome_iff_exists.mp (by with_unfolding_all decide)
  obtain ⟨_, _, hvis, hwl⟩ := ndbc_unit_conversions.1 [] ndbcDemoParts st hst
  rw [hst]
  simp only [Option.map_some', Option.some.injEq]
  constructor
  · rw [hvis (by decide)]
    with_unfolding_all decide
  · rw [hwl (by decide)]
    with_unfolding_all decide
